import Mathlib

/-!
Shallow embedding of `src/adapter_transformers/mixins/bert.py`: the BERT adapter
mixin classes (`BertSelfAttentionAdaptersMixin`, `BertSelfOutputAdaptersMixin`,
`BertOutputAdaptersMixin`, `BertLayerAdaptersMixin`, `BertModelAdaptersMixin`).
Each mixin's `init_adapters` is embedded as a pure state transformer on a record
of the module attributes it reads and writes.  Framework primitives that the file
imports from sibling modules (`..lora`, `..prefix_tuning`, `..layer`,
`..model_mixin`, `..composition`) are not part of the given sources; they are
modelled from the specification, each with a doc comment saying exactly what was
assumed.
-/

/-- Configuration object passed uniformly down the mixin chain.  The embedded
file never interprets its contents, only forwards it, so a bare tag suffices. -/
structure AdapterConfig where
  id : Nat
deriving DecidableEq, Repr

/-- A plain linear layer (`torch.nn.Linear`) as far as this file observes it:
its input and output dimensions. -/
structure Linear where
  in_features : Nat
  out_features : Nat
deriving DecidableEq, Repr

/-- A module slot holding either an original linear layer or a LoRA-wrapped
equivalent.  The `lora` constructor records the wrapped original together with
the location string, optional attention key and configuration, mirroring the
arguments of `LoRALinear.wrap`. -/
inductive LayerSlot where
  | base (lin : Linear)
  | lora (orig : LayerSlot) (location : String) (attn_key : Option String) (config : AdapterConfig)
deriving DecidableEq, Repr

/-- Modelled from the spec: `LoRALinear.wrap(layer, location, config, attn_key=...)`
(from `..lora`, not under `src/`) replaces a linear layer with a LoRA-augmented
equivalent "retaining the original layer's input/output dimensions" (spec §8.1);
the original object is wrapped, not kept as the attribute value (spec §3:
"the original weight matrix replaced in place by a capability-extended version").
In the source `attn_key` defaults to absent; call sites here pass it explicitly. -/
def LoRALinear.wrap (layer : LayerSlot) (location : String) (config : AdapterConfig)
    (attn_key : Option String) : LayerSlot :=
  LayerSlot.lora layer location attn_key config

/-- Input dimension of the layer held in a slot; wrapping preserves it. -/
def LayerSlot.in_features : LayerSlot → Nat
  | .base l => l.in_features
  | .lora o _ _ _ => o.in_features

/-- Output dimension of the layer held in a slot; wrapping preserves it. -/
def LayerSlot.out_features : LayerSlot → Nat
  | .base l => l.out_features
  | .lora o _ _ _ => o.out_features

/-- Number of LoRA wrappers around the underlying linear layer. -/
def LayerSlot.depth : LayerSlot → Nat
  | .base _ => 0
  | .lora o _ _ _ => o.depth + 1

/-- Whether the slot currently holds a LoRA-wrapped layer. -/
def LayerSlot.isLora : LayerSlot → Bool
  | .base _ => false
  | .lora _ _ _ _ => true

/-- Modelled from the spec: `PrefixTuningShim(key, config)` (from `..prefix_tuning`,
not under `src/`) is constructed from an optional location key and the
configuration; the embedded file only observes the constructor arguments. -/
structure PrefixTuningShim where
  key : Option String
  config : AdapterConfig
deriving DecidableEq, Repr

/-- Python truthiness of the `location_key` attribute as used in
`if self.location_key`: an absent/None key (modelled `none`) and the empty
string are falsy; every other string is truthy. -/
def strTruthy : Option String → Bool
  | none => false
  | some s => s != ""

/-- State of a `BertSelfAttention` module as observed by
`BertSelfAttentionAdaptersMixin`: the three projection slots, the (possibly
absent) `location_key` attribute and the (possibly absent) `prefix_tuning`
attribute. -/
structure BertSelfAttention where
  query : LayerSlot
  key : LayerSlot
  value : LayerSlot
  location_key : Option String
  prefix_tuning : Option PrefixTuningShim
deriving DecidableEq, Repr

/-- Embeds `BertSelfAttentionAdaptersMixin.init_adapters` (bert.py lines 26-32):
wraps `query`/`key`/`value` with `LoRALinear.wrap(·, "selfattn", config,
attn_key=...)` and assigns `self.prefix_tuning = PrefixTuningShim(
self.location_key + "_prefix" if self.location_key else None, config)`. -/
def BertSelfAttentionAdaptersMixin.init_adapters (s : BertSelfAttention)
    (config : AdapterConfig) : BertSelfAttention :=
  { s with
    query := LoRALinear.wrap s.query "selfattn" config (some "q"),
    key := LoRALinear.wrap s.key "selfattn" config (some "k"),
    value := LoRALinear.wrap s.value "selfattn" config (some "v"),
    prefix_tuning := some
      { key := if strTruthy s.location_key
                 then some (s.location_key.getD "" ++ "_prefix")
                 else none,
        config := config } }

/-- State of the generic `AdapterLayer` container that `BertSelfOutput` and
`BertOutput` inherit from.  Modelled from the spec: `AdapterLayer` (from
`..layer`, not under `src/`) is the generic per-layer adapter container whose
constructor takes a location key and whose own `init_adapters(config)`
initializes the container using the location key in effect at call time
(spec §3: the location key "must be set before `init_adapters` runs on the
owning container").  The field `adapters_initialized_with` records the
location key and configuration that the generic initialization observed. -/
structure AdapterLayerState where
  location_key : Option String
  adapters_initialized_with : Option (Option String × AdapterConfig)
deriving DecidableEq, Repr

/-- Modelled from the spec: `AdapterLayer.__init__(location_key)` stores the
location key; no adapters are initialized yet. -/
def AdapterLayer.mkState (location_key : String) : AdapterLayerState :=
  { location_key := some location_key, adapters_initialized_with := none }

/-- Modelled from the spec: the generic `AdapterLayer.init_adapters(config)`
initializes the container's adapters from the location key currently set on
the instance, recorded here together with the forwarded configuration. -/
def AdapterLayer.init_adapters (s : AdapterLayerState) (config : AdapterConfig) :
    AdapterLayerState :=
  { s with adapters_initialized_with := some (s.location_key, config) }

/-- Embeds `BertSelfOutputAdaptersMixin.init_adapters` (bert.py lines 42-44):
sets `self.location_key = "mh_adapter"` and then delegates to
`super().init_adapters(config)` (the generic `AdapterLayer`). -/
def BertSelfOutputAdaptersMixin.init_adapters (s : AdapterLayerState)
    (config : AdapterConfig) : AdapterLayerState :=
  AdapterLayer.init_adapters { s with location_key := some "mh_adapter" } config

/-- Embeds `BertOutputAdaptersMixin.init_adapters` (bert.py lines 54-56):
sets `self.location_key = "output_adapter"` and then delegates to
`super().init_adapters(config)` (the generic `AdapterLayer`). -/
def BertOutputAdaptersMixin.init_adapters (s : AdapterLayerState)
    (config : AdapterConfig) : AdapterLayerState :=
  AdapterLayer.init_adapters { s with location_key := some "output_adapter" } config

/-- The attention block owned by a `BertLayer`; the mixin reaches through it to
its `self` sub-module (a `BertSelfAttention`). -/
structure BertAttention where
  self : BertSelfAttention
deriving DecidableEq, Repr

/-- The `intermediate` sub-module of a `BertLayer`, holding a dense layer. -/
structure BertIntermediate where
  dense : LayerSlot
deriving DecidableEq, Repr

/-- The `output` sub-module of a `BertLayer`, holding a dense layer. -/
structure BertOutputModule where
  dense : LayerSlot
deriving DecidableEq, Repr

/-- State of a `BertLayer` module as observed by `BertLayerAdaptersMixin`.
`crossattention` is `none` when the attribute is absent (a BERT layer only has
one when built with cross-attention). -/
structure BertLayer where
  attention : BertAttention
  crossattention : Option BertAttention
  intermediate : BertIntermediate
  output : BertOutputModule
  add_cross_attention : Bool
deriving DecidableEq, Repr

/-- Embeds `BertLayerAdaptersMixin.init_adapters` (bert.py lines 62-70): wraps
`intermediate.dense` and `output.dense` with LoRA (no `attn_key` argument at
these call sites), sets `self.attention.self.location_key = "self"`, and, only
if `self.add_cross_attention`, sets `self.crossattention.self.location_key =
"cross"`.  Accessing `self.crossattention` while the attribute is absent is a
Python `AttributeError`, modelled as `none`. -/
def BertLayerAdaptersMixin.init_adapters (l : BertLayer) (config : AdapterConfig) :
    Option BertLayer :=
  let l1 : BertLayer :=
    { l with
      intermediate := { dense := LoRALinear.wrap l.intermediate.dense "intermediate" config none },
      output := { dense := LoRALinear.wrap l.output.dense "output" config none } }
  let l2 : BertLayer :=
    { l1 with attention := { self := { l1.attention.self with location_key := some "self" } } }
  if l2.add_cross_attention then
    match l2.crossattention with
    | some ca =>
        some { l2 with crossattention := some { self := { ca.self with location_key := some "cross" } } }
    | none => none
  else
    some l2

/-- A registered forward-pre hook on an encoder layer: either the parallel
composition alignment hook installed by `BertModelAdaptersMixin`, or any other
hook registered by code outside the embedded file. -/
inductive PreHook where
  | parallelAlign
  | other (id : Nat)
deriving DecidableEq, Repr

/-- Number of parallel-alignment hooks in a registration list. -/
def countAlign : List PreHook → Nat
  | [] => 0
  | PreHook.parallelAlign :: hs => countAlign hs + 1
  | PreHook.other _ :: hs => countAlign hs

/-- An encoder layer as observed by `BertModelAdaptersMixin`: its list of
forward-pre hooks in registration order. -/
structure EncoderLayer where
  pre_hooks : List PreHook
deriving DecidableEq, Repr

/-- Parallel-alignment hook count of an encoder layer. -/
def EncoderLayer.alignCount (l : EncoderLayer) : Nat :=
  countAlign l.pre_hooks

/-- The encoder module of a `BertModel`, holding the ordered layer collection
`self.encoder.layer`. -/
structure BertEncoder where
  layer : List EncoderLayer
deriving DecidableEq, Repr

/-- State of a `BertModel` as observed by `BertModelAdaptersMixin`: flags for
the three inherited capability initializations and the encoder. -/
structure BertModel where
  embeddings_init : Bool
  invertible_init : Bool
  base_init : Bool
  encoder : BertEncoder
deriving DecidableEq, Repr

/-- Events recorded while `BertModelAdaptersMixin.init_adapters` runs, in
program order: the single `super().init_adapters(config)` delegation, and one
hook registration per encoder layer index. -/
inductive InitEvent where
  | delegated
  | hookRegistered (layerIdx : Nat)
deriving DecidableEq, Repr

/-- Modelled from the spec: the inherited `init_adapters` of
`EmbeddingAdaptersMixin`, `InvertibleAdaptersMixin` and `ModelBaseAdaptersMixin`
(from `..model_mixin`, not under `src/`) initializes the embedding, invertible
and base-model adapter capabilities in a fixed order; it does not register
forward-pre hooks on encoder layers and does not touch the encoder (spec §4.4
attributes all layer-hook registration to the walk that follows delegation). -/
def superInitAdapters (m : BertModel) (_config : AdapterConfig) : BertModel :=
  { m with embeddings_init := true, invertible_init := true, base_init := true }

/-- Embeds `BertModelAdaptersMixin._set_layer_hook_for_parallel` (bert.py lines
83-88) as its effect on a layer's hook registry:
`layer.register_forward_pre_hook(hook)` appends the parallel-alignment hook. -/
def set_layer_hook_for_parallel (layer : EncoderLayer) : EncoderLayer :=
  { layer with pre_hooks := layer.pre_hooks ++ [PreHook.parallelAlign] }

/-- Embeds `BertModelAdaptersMixin.iter_layers` (bert.py lines 90-92):
`for i, layer in enumerate(self.encoder.layer): yield i, layer`.  The generator
re-walks `self.encoder.layer` each time it is invoked; as a pure function of
the model it returns the same list on every call. -/
def BertModel.iter_layers (m : BertModel) : List (Nat × EncoderLayer) :=
  m.encoder.layer.enum

/-- Embeds `BertModelAdaptersMixin.init_adapters` (bert.py lines 76-81): first
`super().init_adapters(config)`, then `for _, layer in self.iter_layers():
self._set_layer_hook_for_parallel(layer)`.  Returns the new model state
together with the trace of events in program order. -/
def BertModelAdaptersMixin.init_adapters (m : BertModel) (config : AdapterConfig) :
    BertModel × List InitEvent :=
  let m1 := superInitAdapters m config
  ({ m1 with encoder := { layer := m1.encoder.layer.map set_layer_hook_for_parallel } },
   InitEvent.delegated :: (BertModel.iter_layers m1).map (fun p => InitEvent.hookRegistered p.1))

/-- The model state after `BertModelAdaptersMixin.init_adapters`, discarding
the event trace (used to iterate the call). -/
def BertModelAdaptersMixin.initState (config : AdapterConfig) (m : BertModel) : BertModel :=
  (BertModelAdaptersMixin.init_adapters m config).1

/-- A tensor as the alignment hook observes it: a leading batch dimension and a
payload.  Only equality of contents matters to the claims. -/
structure Tensor where
  batch : Nat
  data : List Int
deriving DecidableEq, Repr

/-- A reference to a tensor object (Python object identity). -/
abbrev TRef := Nat

/-- Stand-in for the `module` argument a forward-pre hook receives; the hook
never touches it. -/
abbrev ModuleSt := Nat

/-- Embeds the closure `hook(module, input)` created by
`BertModelAdaptersMixin._set_layer_hook_for_parallel` (bert.py lines 84-86):
it calls `adjust_tensors_for_parallel_(input[0], input[1])` and returns
`input`.  The input tuple is a list of tensor references into a heap; the
returned triple is (module after, heap after, returned tuple).  Indexing
`input[1]` on a tuple with fewer than two elements raises `IndexError`,
modelled as `none`.  Modelled from the spec: `adjust_tensors_for_parallel_`
(from `..composition`, not under `src/`) re-aligns its two argument tensors in
place for parallel composition and touches nothing else; it is modelled by the
parameter `adj`, giving the post-call contents of the two argument objects. -/
def hook (adj : Tensor → Tensor → Tensor × Tensor) (module : ModuleSt)
    (heap : TRef → Tensor) (input : List TRef) :
    Option (ModuleSt × (TRef → Tensor) × List TRef) :=
  match input with
  | r0 :: r1 :: rest =>
      let p := adj (heap r0) (heap r1)
      some (module,
            fun r => if r = r1 then p.2 else if r = r0 then p.1 else heap r,
            r0 :: r1 :: rest)
  | _ => none

/-- Sample configuration used by witness theorems. -/
def cfg0 : AdapterConfig := { id := 7 }

/-- Sample self-attention state with a truthy location key. -/
def attn0 : BertSelfAttention :=
  { query := LayerSlot.base { in_features := 8, out_features := 8 },
    key := LayerSlot.base { in_features := 8, out_features := 8 },
    value := LayerSlot.base { in_features := 8, out_features := 8 },
    location_key := some "self",
    prefix_tuning := none }

/-- Sample self-attention state with an absent location key. -/
def attn1 : BertSelfAttention :=
  { attn0 with location_key := none }

/-- Sample layer with cross-attention enabled and present. -/
def layer0 : BertLayer :=
  { attention := { self := attn1 },
    crossattention := some { self := attn1 },
    intermediate := { dense := LayerSlot.base { in_features := 8, out_features := 32 } },
    output := { dense := LayerSlot.base { in_features := 32, out_features := 8 } },
    add_cross_attention := true }

/-- Sample model with two fresh encoder layers. -/
def model0 : BertModel :=
  { embeddings_init := false, invertible_init := false, base_init := false,
    encoder := { layer := [{ pre_hooks := [] }, { pre_hooks := [] }] } }

/-- Sample behavior of the external tensor adjustment, used by witness
theorems: swap the two tensors' contents. -/
def adj0 : Tensor → Tensor → Tensor × Tensor := fun a b => (b, a)

/-- Sample tensor heap used by witness theorems. -/
def heap0 : TRef → Tensor := fun r => { batch := r, data := [] }

/-- Helper: a LoRA wrapper is never equal to the slot it wraps. -/
theorem LayerSlot.lora_ne (o : LayerSlot) (loc : String) (k : Option String)
    (c : AdapterConfig) : LayerSlot.lora o loc k c ≠ o := by
  intro h
  have hd := congrArg LayerSlot.depth h
  simp [LayerSlot.depth] at hd

/-- Claim C1: after `BertSelfAttentionAdaptersMixin.init_adapters(config)` runs,
`query`, `key` and `value` are no longer the original layer objects but the
LoRA-wrapped equivalents produced by `LoRALinear.wrap` with location
"selfattn" and attention-role keys "q", "k" and "v" respectively, each
retaining the original layer's input/output dimensions. -/
theorem claim_C1 (config : AdapterConfig) (s : BertSelfAttention) :
    let s2 := BertSelfAttentionAdaptersMixin.init_adapters s config
    s2.query = LoRALinear.wrap s.query "selfattn" config (some "q") ∧
    s2.key = LoRALinear.wrap s.key "selfattn" config (some "k") ∧
    s2.value = LoRALinear.wrap s.value "selfattn" config (some "v") ∧
    s2.query ≠ s.query ∧ s2.key ≠ s.key ∧ s2.value ≠ s.value ∧
    s2.query.isLora = true ∧ s2.key.isLora = true ∧ s2.value.isLora = true ∧
    s2.query.in_features = s.query.in_features ∧
    s2.query.out_features = s.query.out_features ∧
    s2.key.in_features = s.key.in_features ∧
    s2.key.out_features = s.key.out_features ∧
    s2.value.in_features = s.value.in_features ∧
    s2.value.out_features = s.value.out_features := by
  intro s2
  refine ⟨rfl, rfl, rfl, ?_, ?_, ?_, rfl, rfl, rfl, rfl, rfl, rfl, rfl, rfl, rfl⟩ <;>
    exact LayerSlot.lora_ne _ _ _ _

/-- Witness for C1 at a concrete self-attention state and configuration. -/
theorem claim_C1_witness :
    let s2 := BertSelfAttentionAdaptersMixin.init_adapters attn0 cfg0
    s2.query = LoRALinear.wrap attn0.query "selfattn" cfg0 (some "q") ∧
    s2.key = LoRALinear.wrap attn0.key "selfattn" cfg0 (some "k") ∧
    s2.value = LoRALinear.wrap attn0.value "selfattn" cfg0 (some "v") ∧
    s2.query ≠ attn0.query ∧ s2.key ≠ attn0.key ∧ s2.value ≠ attn0.value ∧
    s2.query.isLora = true ∧ s2.key.isLora = true ∧ s2.value.isLora = true ∧
    s2.query.in_features = attn0.query.in_features ∧
    s2.query.out_features = attn0.query.out_features ∧
    s2.key.in_features = attn0.key.in_features ∧
    s2.key.out_features = attn0.key.out_features ∧
    s2.value.in_features = attn0.value.in_features ∧
    s2.value.out_features = attn0.value.out_features :=
  claim_C1 cfg0 attn0

/-- Claim C2: after `init_adapters`, the `prefix_tuning` attribute is non-null
whenever `location_key` is truthy; the shim is constructed with the composite
key `location_key + "_prefix"` when the base key is truthy, and with no key
(`None`) when the base key is absent. -/
theorem claim_C2 (config : AdapterConfig) (s : BertSelfAttention) :
    (strTruthy s.location_key = true →
      (BertSelfAttentionAdaptersMixin.init_adapters s config).prefix_tuning ≠ none) ∧
    (∀ lk : String, s.location_key = some lk → lk ≠ "" →
      (BertSelfAttentionAdaptersMixin.init_adapters s config).prefix_tuning =
        some { key := some (lk ++ "_prefix"), config := config }) ∧
    (s.location_key = none →
      (BertSelfAttentionAdaptersMixin.init_adapters s config).prefix_tuning =
        some { key := none, config := config }) := by
  refine ⟨?_, ?_, ?_⟩
  · intro _
    simp [BertSelfAttentionAdaptersMixin.init_adapters]
  · intro lk hlk hne
    simp [BertSelfAttentionAdaptersMixin.init_adapters, hlk, strTruthy, bne_iff_ne, hne]
  · intro h
    simp [BertSelfAttentionAdaptersMixin.init_adapters, h, strTruthy]

/-- Witness for C2 at a concrete state whose location key is "self". -/
theorem claim_C2_witness :
    (strTruthy attn0.location_key = true →
      (BertSelfAttentionAdaptersMixin.init_adapters attn0 cfg0).prefix_tuning ≠ none) ∧
    (∀ lk : String, attn0.location_key = some lk → lk ≠ "" →
      (BertSelfAttentionAdaptersMixin.init_adapters attn0 cfg0).prefix_tuning =
        some { key := some (lk ++ "_prefix"), config := cfg0 }) ∧
    (attn0.location_key = none →
      (BertSelfAttentionAdaptersMixin.init_adapters attn0 cfg0).prefix_tuning =
        some { key := none, config := cfg0 }) :=
  claim_C2 cfg0 attn0

/-- Claim C8: after `init_adapters`, `prefix_tuning` holds a newly constructed
shim and is therefore non-null even when `location_key` is falsy (absent or
the empty string); in that falsy case the shim is constructed with key `None`
rather than being omitted. -/
theorem claim_C8 (config : AdapterConfig) (s : BertSelfAttention) :
    (BertSelfAttentionAdaptersMixin.init_adapters s config).prefix_tuning.isSome = true ∧
    (strTruthy s.location_key = false →
      (BertSelfAttentionAdaptersMixin.init_adapters s config).prefix_tuning =
        some { key := none, config := config }) := by
  constructor
  · simp [BertSelfAttentionAdaptersMixin.init_adapters]
  · intro h
    simp [BertSelfAttentionAdaptersMixin.init_adapters, h]

/-- Witness for C8 at a concrete state whose location key is absent. -/
theorem claim_C8_witness :
    (BertSelfAttentionAdaptersMixin.init_adapters attn1 cfg0).prefix_tuning.isSome = true ∧
    (strTruthy attn1.location_key = false →
      (BertSelfAttentionAdaptersMixin.init_adapters attn1 cfg0).prefix_tuning =
        some { key := none, config := cfg0 }) :=
  claim_C8 cfg0 attn1

/-- Claim C4: after `init_adapters` on `BertSelfOutputAdaptersMixin` the
location key equals the fixed literal "mh_adapter", and after `init_adapters`
on `BertOutputAdaptersMixin` it equals "output_adapter", regardless of the
input configuration; in both cases the fixed key is assigned before the call
delegates to the generic `AdapterLayer` initialization, so the generic
initialization observes the fixed key. -/
theorem claim_C4 (config : AdapterConfig) (s t : AdapterLayerState) :
    ((BertSelfOutputAdaptersMixin.init_adapters s config).location_key = some "mh_adapter" ∧
     (BertSelfOutputAdaptersMixin.init_adapters s config).adapters_initialized_with =
       some (some "mh_adapter", config)) ∧
    ((BertOutputAdaptersMixin.init_adapters t config).location_key = some "output_adapter" ∧
     (BertOutputAdaptersMixin.init_adapters t config).adapters_initialized_with =
       some (some "output_adapter", config)) :=
  ⟨⟨rfl, rfl⟩, ⟨rfl, rfl⟩⟩

/-- Claim C3: after `BertLayerAdaptersMixin.init_adapters(config)` runs (which
succeeds whenever the cross-attention module is present if the flag is set),
`attention.self.location_key` equals "self", and
`crossattention.self.location_key` is set to "cross" if and only if the
pre-existing flag `add_cross_attention` is true; when the flag is false the
cross-attention attribute is left untouched. -/
theorem claim_C3 (config : AdapterConfig) (l : BertLayer)
    (h : l.add_cross_attention = true → l.crossattention.isSome = true) :
    ∃ l2, BertLayerAdaptersMixin.init_adapters l config = some l2 ∧
      l2.attention.self.location_key = some "self" ∧
      (l.add_cross_attention = true →
        ∃ ca, l2.crossattention = some ca ∧ ca.self.location_key = some "cross") ∧
      (l.add_cross_attention = false → l2.crossattention = l.crossattention) := by
  cases hc : l.add_cross_attention with
  | false =>
      have hinit : BertLayerAdaptersMixin.init_adapters l config =
          some { l with
            intermediate := { dense := LoRALinear.wrap l.intermediate.dense "intermediate" config none },
            output := { dense := LoRALinear.wrap l.output.dense "output" config none },
            attention := { self := { l.attention.self with location_key := some "self" } } } := by
        simp [BertLayerAdaptersMixin.init_adapters, hc]
      exact ⟨_, hinit, rfl, fun hcontra => by simp at hcontra, fun _ => rfl⟩
  | true =>
      obtain ⟨ca, hca⟩ := Option.isSome_iff_exists.mp (h hc)
      have hinit : BertLayerAdaptersMixin.init_adapters l config =
          some { l with
            intermediate := { dense := LoRALinear.wrap l.intermediate.dense "intermediate" config none },
            output := { dense := LoRALinear.wrap l.output.dense "output" config none },
            attention := { self := { l.attention.self with location_key := some "self" } },
            crossattention := some { self := { ca.self with location_key := some "cross" } } } := by
        simp [BertLayerAdaptersMixin.init_adapters, hc, hca]
      exact ⟨_, hinit, rfl, fun _ => ⟨_, rfl, rfl⟩, fun hcontra => by simp at hcontra⟩

/-- Witness for C3 at a concrete layer with cross-attention enabled. -/
theorem claim_C3_witness :
    (layer0.add_cross_attention = true → layer0.crossattention.isSome = true) ∧
    (∃ l2, BertLayerAdaptersMixin.init_adapters layer0 cfg0 = some l2 ∧
      l2.attention.self.location_key = some "self" ∧
      (layer0.add_cross_attention = true →
        ∃ ca, l2.crossattention = some ca ∧ ca.self.location_key = some "cross") ∧
      (layer0.add_cross_attention = false → l2.crossattention = layer0.crossattention)) :=
  ⟨by decide, claim_C3 cfg0 layer0 (by decide)⟩

/-- Claim C5: `iter_layers()` yields index/layer pairs whose indices ascend
from 0 and whose layers match the order of `self.encoder.layer`: the entry at
position i is exactly `(i, encoder.layer[i])`, the second components are the
layer collection itself, and the first components are `range (length)`.  As a
pure function of the model, re-invoking it yields the same sequence, so the
iteration is restartable. -/
theorem claim_C5 (m : BertModel) :
    (∀ i : Nat, (BertModel.iter_layers m)[i]? =
       (m.encoder.layer[i]?).map (fun l => (i, l))) ∧
    (BertModel.iter_layers m).map Prod.snd = m.encoder.layer ∧
    (BertModel.iter_layers m).map Prod.fst = List.range m.encoder.layer.length := by
  refine ⟨?_, ?_, ?_⟩
  · intro i
    simp [BertModel.iter_layers, List.getElem?_enum]
  · simp [BertModel.iter_layers, List.enum_map_snd]
  · simp [BertModel.iter_layers, List.enum_map_fst]

/-- Claim C7: `BertModelAdaptersMixin.init_adapters` produces the event trace
whose head is the single delegation to the inherited capability-mixin
initialization and whose tail is exactly one hook registration per encoder
layer index, in ascending order: the delegation strictly precedes every hook
registration. -/
theorem claim_C7 (m : BertModel) (config : AdapterConfig) :
    (BertModelAdaptersMixin.init_adapters m config).2 =
      InitEvent.delegated ::
        (List.range m.encoder.layer.length).map InitEvent.hookRegistered := by
  have h1 : (BertModel.iter_layers (superInitAdapters m config)).map
      (fun p => InitEvent.hookRegistered p.1) =
      ((BertModel.iter_layers (superInitAdapters m config)).map Prod.fst).map
        InitEvent.hookRegistered := by
    simp [List.map_map, Function.comp]
  simp only [BertModelAdaptersMixin.init_adapters, h1]
  simp [BertModel.iter_layers, List.enum_map_fst, superInitAdapters]

/-- Helper: appending the alignment hook increments the alignment count. -/
theorem countAlign_append_align (hs : List PreHook) :
    countAlign (hs ++ [PreHook.parallelAlign]) = countAlign hs + 1 := by
  induction hs with
  | nil => rfl
  | cons hd tl ih => cases hd <;> simp [countAlign, ih]

/-- Helper: the hook-setting step adds exactly one alignment hook to a layer. -/
theorem alignCount_set_layer_hook (l : EncoderLayer) :
    (set_layer_hook_for_parallel l).alignCount = l.alignCount + 1 := by
  simpa [set_layer_hook_for_parallel, EncoderLayer.alignCount] using
    countAlign_append_align l.pre_hooks

/-- Helper: the encoder layer list after model-level `init_adapters` is the
hook-setting map over the original layer list. -/
theorem init_layers_eq (m : BertModel) (config : AdapterConfig) :
    (BertModelAdaptersMixin.init_adapters m config).1.encoder.layer =
      m.encoder.layer.map set_layer_hook_for_parallel := rfl

/-- Claim C6: after a single call of `BertModelAdaptersMixin.init_adapters`,
no layer is skipped and none receives a duplicate registration within that
call: the layer count is unchanged, each layer's parallel-alignment hook count
rises by exactly one, and on a model whose layers carry no alignment hook yet
every layer ends up with exactly one. -/
theorem claim_C6 (m : BertModel) (config : AdapterConfig) :
    ((BertModelAdaptersMixin.init_adapters m config).1.encoder.layer.length =
       m.encoder.layer.length) ∧
    (∀ i : Nat, i < m.encoder.layer.length →
      EncoderLayer.alignCount
          (((BertModelAdaptersMixin.init_adapters m config).1.encoder.layer).getD i { pre_hooks := [] }) =
        EncoderLayer.alignCount (m.encoder.layer.getD i { pre_hooks := [] }) + 1) ∧
    ((∀ l ∈ m.encoder.layer, EncoderLayer.alignCount l = 0) →
      ∀ l ∈ (BertModelAdaptersMixin.init_adapters m config).1.encoder.layer,
        EncoderLayer.alignCount l = 1) := by
  refine ⟨?_, ?_, ?_⟩
  · rw [init_layers_eq]; simp
  · intro i hi
    rw [init_layers_eq, List.getD_eq_getElem?_getD, List.getD_eq_getElem?_getD,
        List.getElem?_map, List.getElem?_eq_getElem hi]
    simp [alignCount_set_layer_hook]
  · intro h0 l hl
    rw [init_layers_eq] at hl
    obtain ⟨l0, hl0, rfl⟩ := List.mem_map.mp hl
    rw [alignCount_set_layer_hook, h0 l0 hl0]

/-- Witness for C6 on a concrete fresh two-layer model. -/
theorem claim_C6_witness :
    (∀ l ∈ model0.encoder.layer, EncoderLayer.alignCount l = 0) ∧
    (∀ l ∈ (BertModelAdaptersMixin.init_adapters model0 cfg0).1.encoder.layer,
      EncoderLayer.alignCount l = 1) :=
  ⟨by decide, (claim_C6 model0 cfg0).2.2 (by decide)⟩

/-- Claim C9 counterexample: the claim quantifies over every input tuple, but
on the concrete empty argument tuple the registered hook indexes `input[0]`
and raises `IndexError` (modelled `none`) instead of returning the tuple it
received. -/
theorem claim_C9_counterexample :
    hook adj0 0 heap0 [] = none := rfl

/-- Claim C9 (amended): for every behavior of the external in-place adjustment,
every module and every input tuple with at least two elements, the hook
returns exactly the tuple of tensor references it received; its only effect is
the in-place adjustment of the tensors referenced by the tuple's first two
elements, and every other heap location — and the module — is untouched.  On
tuples with fewer than two elements the hook instead raises `IndexError`. -/
theorem claim_C9 (adj : Tensor → Tensor → Tensor × Tensor) (module : ModuleSt)
    (heap : TRef → Tensor) (r0 r1 : TRef) (rest : List TRef) :
    ∃ heap2 : TRef → Tensor,
      hook adj module heap (r0 :: r1 :: rest) = some (module, heap2, r0 :: r1 :: rest) ∧
      heap2 r1 = (adj (heap r0) (heap r1)).2 ∧
      (r0 ≠ r1 → heap2 r0 = (adj (heap r0) (heap r1)).1) ∧
      (∀ r : TRef, r ≠ r0 → r ≠ r1 → heap2 r = heap r) := by
  refine ⟨_, rfl, ?_, ?_, ?_⟩
  · simp
  · intro hne
    simp [hne]
  · intro r h0 h1
    simp [h0, h1]

/-- Witness for (amended) C9 at a concrete heap, module and three-element
input tuple. -/
theorem claim_C9_witness :
    ∃ heap2 : TRef → Tensor,
      hook adj0 5 heap0 (0 :: 1 :: [2]) = some (5, heap2, 0 :: 1 :: [2]) ∧
      heap2 1 = (adj0 (heap0 0) (heap0 1)).2 ∧
      ((0 : TRef) ≠ 1 → heap2 0 = (adj0 (heap0 0) (heap0 1)).1) ∧
      (∀ r : TRef, r ≠ 0 → r ≠ 1 → heap2 r = heap0 r) :=
  claim_C9 adj0 5 heap0 0 1 [2]

/-- Helper: one model-level init call raises every layer's alignment count
from k to k + 1. -/
theorem initState_alignCount_step (config : AdapterConfig) (k : Nat) (m : BertModel)
    (h : ∀ l ∈ m.encoder.layer, EncoderLayer.alignCount l = k) :
    ∀ l ∈ (BertModelAdaptersMixin.initState config m).encoder.layer,
      EncoderLayer.alignCount l = k + 1 := by
  intro l hl
  rw [BertModelAdaptersMixin.initState, init_layers_eq] at hl
  obtain ⟨l0, hl0, rfl⟩ := List.mem_map.mp hl
  rw [alignCount_set_layer_hook, h l0 hl0]

/-- Helper: n iterated init calls raise every layer's alignment count from
k to k + n. -/
theorem initState_iterate_alignCount (config : AdapterConfig) (n : Nat) :
    ∀ (k : Nat) (m : BertModel),
      (∀ l ∈ m.encoder.layer, EncoderLayer.alignCount l = k) →
      ∀ l ∈ ((BertModelAdaptersMixin.initState config)^[n] m).encoder.layer,
        EncoderLayer.alignCount l = k + n := by
  induction n with
  | zero =>
      intro k m h l hl
      simpa using h l (by simpa using hl)
  | succ j ih =>
      intro k m h l hl
      rw [Function.iterate_succ_apply] at hl
      have hres := ih (k + 1) (BertModelAdaptersMixin.initState config m)
        (initState_alignCount_step config k m h) l hl
      omega

/-- Claim C10: `init_adapters` is not idempotent with respect to hook
registration: for every n ≥ 1, after n calls on a model whose layers start
with no alignment hooks, each encoder layer carries exactly n parallel
alignment forward-pre hooks. -/
theorem claim_C10 (config : AdapterConfig) (m : BertModel) (n : Nat) (_hn : 1 ≤ n)
    (h0 : ∀ l ∈ m.encoder.layer, EncoderLayer.alignCount l = 0) :
    ∀ l ∈ ((BertModelAdaptersMixin.initState config)^[n] m).encoder.layer,
      EncoderLayer.alignCount l = n := by
  have hres := initState_iterate_alignCount config n 0 m h0
  simpa using hres

/-- Witness for C10: two calls on a concrete fresh two-layer model leave two
alignment hooks on every layer. -/
theorem claim_C10_witness :
    1 ≤ 2 ∧
    (∀ l ∈ model0.encoder.layer, EncoderLayer.alignCount l = 0) ∧
    (∀ l ∈ ((BertModelAdaptersMixin.initState cfg0)^[2] model0).encoder.layer,
      EncoderLayer.alignCount l = 2) :=
  ⟨by decide, by decide, claim_C10 cfg0 model0 2 (by decide) (by decide)⟩
